import Mathlib

/-!
Verification of `src/scripts/global-functions.js` from the
limit-youtube-chrome-Ext repository.

The file is a shallow embedding of the JavaScript utility layer:

* JavaScript object values sent to the service worker are modelled by the
  `JsValue` / `DbRecord` / `Request` types; the optional fields of the message
  object literal become `Option` fields, a field that a helper does not set
  staying `none`.
* The message round trip (`sendMessageToServiceWorker`) is modelled by a
  function argument `send : Request → Except TransportError α`: `Except.ok`
  is the resolved reply, `Except.error` the transport rejection
  (`chrome.runtime.lastError`).
* Each async helper becomes a function from its arguments and `send` to a pair
  `JsReturn α × Nat`: the first component is the JavaScript value the promise
  resolves to (a payload, the literal `true` / `false`, or `undefined`), the
  second counts the `console.error` calls the helper performs.
* `Math.floor(x / k)` on integer input is integer floor division, which is
  `Int` division (`Int.ediv`) in Lean.
-/

/-- Primitive JavaScript values carried in request fields. -/
inductive JsValue where
  | str : String → JsValue
  | int : Int → JsValue
  | bool : Bool → JsValue
deriving DecidableEq

/-- A storage record: an untyped mapping from string keys to primitive values. -/
abbrev DbRecord := List (String × JsValue)

/-- The message object sent to the service worker.  The documented shape
(JSDoc of `sendMessageToServiceWorker`) has the fields `operation`, `table`,
`index`, `property`, `value`, `records` and `newRecords`.  The extra field
`id` models the undocumented key that `deleteRecordByIdGlobal` actually puts
in its object literal (`id: id` instead of `index: id`). -/
structure Request where
  operation : String
  table : Option String := none
  index : Option Int := none
  property : Option String := none
  value : Option JsValue := none
  records : Option (List DbRecord) := none
  newRecords : Option DbRecord := none
  id : Option Int := none
deriving DecidableEq

/-- A transport-level rejection (`chrome.runtime.lastError`). -/
structure TransportError where
  message : String
deriving DecidableEq

/-- The JavaScript value an async helper's promise resolves to. -/
inductive JsReturn (α : Type) where
  | val : α → JsReturn α
  | boolTrue : JsReturn α
  | boolFalse : JsReturn α
  | undefined : JsReturn α
deriving DecidableEq

/-! ## Time formatting (`convertTimeToText`, lines 350-374) -/

/-- Local `min` of `convertTimeToText`: `Math.floor(timeUsage / 60)`. -/
def minutesOf (timeUsage : Int) : Int := timeUsage / 60

/-- Local `sec` of `convertTimeToText`: `Math.floor(timeUsage - min * 60)`. -/
def secondsRemOf (timeUsage : Int) : Int := timeUsage - minutesOf timeUsage * 60

/-- Local `hours` of `convertTimeToText`: `Math.floor(timeUsage / 3600)`. -/
def hoursOf (timeUsage : Int) : Int := timeUsage / 3600

/-- Local `remainingMinutes` of `convertTimeToText`:
`Math.floor((timeUsage - hours * 3600) / 60)`. -/
def remainingMinutesOf (timeUsage : Int) : Int :=
  (timeUsage - hoursOf timeUsage * 3600) / 60

/-- Embedding of `window.convertTimeToText` (lines 350-374).  The result is
`Option String` because the JavaScript function returns `undefined` when no
branch of its `if` / `else if` chain matches; the branch structure is kept
exactly as in the source. -/
def convertTimeToText (timeUsage : Int) (abbrActive : Bool) : Option String :=
  if timeUsage < 60 then
    some (toString timeUsage ++ " seconds")
  else if timeUsage ≥ 60 then
    let min := minutesOf timeUsage
    let sec := secondsRemOf timeUsage
    if timeUsage < 3600 then
      some (if abbrActive then
        toString min ++ " " ++ (if min = 1 then "Min" else "Mins")
          ++ " " ++ toString sec ++ " Sec"
      else
        toString min ++ " " ++ (if min = 1 then "Minute" else "Minutes")
          ++ " " ++ toString sec ++ " Seconds")
    else if timeUsage ≥ 3600 then
      let hours := hoursOf timeUsage
      let remainingMinutes := remainingMinutesOf timeUsage
      some (toString hours ++ " Hr" ++ (if hours ≠ 1 then "s" else "")
        ++ " " ++ toString remainingMinutes ++ " "
        ++ (if remainingMinutes = 1 then "Min" else "Mins"))
    else none
  else none

/-- Reference rendering written from the specification text (section 4.3):
piecewise on `n < 60`, `60 ≤ n < 3600` and `n ≥ 3600`, with `m = floor(n/60)`,
`s = n - m*60`, `h = floor(n/3600)`, each unit pluralized exactly as the
specification describes. -/
def convertTimeToTextRef (n : Int) (abbr : Bool) : String :=
  if n < 60 then
    toString n ++ " seconds"
  else if n < 3600 then
    let m := n / 60
    let s := n - m * 60
    if abbr then
      toString m ++ " " ++ (if m = 1 then "Min" else "Mins")
        ++ " " ++ toString s ++ " Sec"
    else
      toString m ++ " " ++ (if m = 1 then "Minute" else "Minutes")
        ++ " " ++ toString s ++ " Seconds"
  else
    let h := n / 3600
    let m := (n - h * 3600) / 60
    toString h ++ " Hr" ++ (if h = 1 then "" else "s")
      ++ " " ++ toString m ++ " " ++ (if m = 1 then "Min" else "Mins")

/-- C1: for every integer `n ≥ 0` and every boolean `abbr`,
`convertTimeToText n abbr` produces exactly the piecewise reference string of
the specification (seconds below a minute; minutes and a never-by-count
pluralized seconds unit below an hour; hours and minutes with the leftover
seconds truncated at an hour and above). -/
theorem convertTimeToText_matches_ref (n : Int) (_hn : 0 ≤ n) (abbr : Bool) :
    convertTimeToText n abbr = some (convertTimeToTextRef n abbr) := by
  by_cases h60 : n < 60
  · simp [convertTimeToText, convertTimeToTextRef, h60]
  · have h60' : n ≥ 60 := by omega
    by_cases h36 : n < 3600
    · simp [convertTimeToText, convertTimeToTextRef,
        minutesOf, secondsRemOf, h60, h60', h36]
    · have h36' : n ≥ 3600 := by omega
      by_cases h1 : n / 3600 = 1 <;>
        simp [convertTimeToText, convertTimeToTextRef,
          hoursOf, remainingMinutesOf, h60, h60', h36, h36', h1]

/-- Witness for C1 at a concrete input from the claim's example list. -/
theorem convertTimeToText_matches_ref_witness :
    convertTimeToText 7260 false = some (convertTimeToTextRef 7260 false) ∧
    convertTimeToTextRef 7260 false = "2 Hrs 1 Min" :=
  ⟨convertTimeToText_matches_ref 7260 (by decide) false, by decide⟩

/-- C7 counterexample: the claim says a negative input matches no branch and
yields an undefined result, but `-5 < 60` matches the very first branch, so
the code returns the defined string `"-5 seconds"`, not `undefined`. -/
theorem convertTimeToText_negative_counterexample :
    convertTimeToText (-5) false = some "-5 seconds" ∧
    convertTimeToText (-5) false ≠ none := by
  constructor
  · decide
  · decide

/-- C7 amended: for every negative integer `n` (and either abbreviation flag),
`convertTimeToText` matches the first branch of the case analysis (`n < 60`)
and returns the defined string `"{n} seconds"` with the negative count
rendered verbatim; the result is never undefined. -/
theorem convertTimeToText_negative_seconds (n : Int) (hn : n < 0) (abbr : Bool) :
    convertTimeToText n abbr = some (toString n ++ " seconds") := by
  unfold convertTimeToText
  have h60 : n < 60 := by omega
  simp [h60]

/-- Witness for the amended C7 at `n = -5`. -/
theorem convertTimeToText_negative_seconds_witness :
    convertTimeToText (-5) true = some (toString (-5 : Int) ++ " seconds") :=
  convertTimeToText_negative_seconds (-5) (by decide) true

/-- C8: for every non-negative integer `n`, every quantity
`convertTimeToText` computes is non-negative (no unit with a negative
magnitude) and both sub-unit remainders — the seconds remainder of the
minutes branch and the minutes remainder of the hours branch — are strictly
below 60. -/
theorem convertTimeToText_remainders_bounded (n : Int) (hn : 0 ≤ n) :
    0 ≤ minutesOf n ∧ 0 ≤ secondsRemOf n ∧ secondsRemOf n < 60 ∧
    0 ≤ hoursOf n ∧ 0 ≤ remainingMinutesOf n ∧ remainingMinutesOf n < 60 := by
  simp only [minutesOf, secondsRemOf, hoursOf, remainingMinutesOf]
  omega

/-- Witness for C8 at `n = 125`. -/
theorem convertTimeToText_remainders_bounded_witness :
    0 ≤ minutesOf 125 ∧ 0 ≤ secondsRemOf 125 ∧ secondsRemOf 125 < 60 ∧
    0 ≤ hoursOf 125 ∧ 0 ≤ remainingMinutesOf 125 ∧ remainingMinutesOf 125 < 60 :=
  convertTimeToText_remainders_bounded 125 (by decide)

/-! ## Record access helpers (lines 102-326) -/

/-- Message object literal built by `filterRecordsGlobal` (lines 104-109). -/
def filterRecordsRequest (table property : String) (value : JsValue) : Request :=
  { operation := "filterRecords", table := some table,
    property := some property, value := some value }

/-- Message object literal built by `resetTableGlobal` (lines 136-139). -/
def resetTableRequest (table : String) : Request :=
  { operation := "resetTable", table := some table }

/-- Message object literal built by `selectAllRecordsGlobal` (lines 166-169). -/
def selectAllRecordsRequest (table : String) : Request :=
  { operation := "selectAllRecords", table := some table }

/-- Message object literal built by `selectRecordByIdGlobal` (lines 197-201):
the record identifier travels in the `index` field. -/
def selectRecordByIdRequest (table : String) (idArg : Int) : Request :=
  { operation := "selectRecordById", table := some table, index := some idArg }

/-- Message object literal built by `updateRecordByPropertyGlobal`
(lines 236-242). -/
def updateRecordByPropertyRequest (table property : String) (value : JsValue)
    (newRecords : DbRecord) : Request :=
  { operation := "updateRecordByProperty", table := some table,
    property := some property, value := some value,
    newRecords := some newRecords }

/-- Message object literal built by `deleteRecordByIdGlobal` (lines 281-285):
the source writes `id: id`, so the identifier travels in the undocumented
`id` field and the documented `index` field stays unset. -/
def deleteRecordByIdRequest (table : String) (idArg : Int) : Request :=
  { operation := "deleteRecordById", table := some table, id := some idArg }

/-- Message object literal built by `insertRecordsGlobal` (lines 315-319):
the `newRecords` argument is sent in the `records` field. -/
def insertRecordsRequest (table : String) (newRecords : List DbRecord) : Request :=
  { operation := "insertRecords", table := some table, records := some newRecords }

/-- Embedding of `window.filterRecordsGlobal` (lines 102-116): await the
bridge, return the payload unchanged; on rejection log one error and return
`false`. -/
def filterRecordsGlobal {α : Type} (send : Request → Except TransportError α)
    (table property : String) (value : JsValue) : JsReturn α × Nat :=
  match send (filterRecordsRequest table property value) with
  | Except.ok filteredRecords => (JsReturn.val filteredRecords, 0)
  | Except.error _ => (JsReturn.boolFalse, 1)

/-- Embedding of `window.resetTableGlobal` (lines 134-146). -/
def resetTableGlobal {α : Type} (send : Request → Except TransportError α)
    (table : String) : JsReturn α × Nat :=
  match send (resetTableRequest table) with
  | Except.ok result => (JsReturn.val result, 0)
  | Except.error _ => (JsReturn.boolFalse, 1)

/-- Embedding of `window.selectAllRecordsGlobal` (lines 164-176). -/
def selectAllRecordsGlobal {α : Type} (send : Request → Except TransportError α)
    (table : String) : JsReturn α × Nat :=
  match send (selectAllRecordsRequest table) with
  | Except.ok allRecordsInTable => (JsReturn.val allRecordsInTable, 0)
  | Except.error _ => (JsReturn.boolFalse, 1)

/-- Embedding of `window.selectRecordByIdGlobal` (lines 195-208). -/
def selectRecordByIdGlobal {α : Type} (send : Request → Except TransportError α)
    (table : String) (idArg : Int) : JsReturn α × Nat :=
  match send (selectRecordByIdRequest table idArg) with
  | Except.ok recordsWithId => (JsReturn.val recordsWithId, 0)
  | Except.error _ => (JsReturn.boolFalse, 1)

/-- Embedding of `window.deleteRecordByIdGlobal` (lines 277-294): the
`console.log` calls of the source are not error logs, so only the `catch`
branch counts one. -/
def deleteRecordByIdGlobal {α : Type} (send : Request → Except TransportError α)
    (table : String) (idArg : Int) : JsReturn α × Nat :=
  match send (deleteRecordByIdRequest table idArg) with
  | Except.ok result => (JsReturn.val result, 0)
  | Except.error _ => (JsReturn.boolFalse, 1)

/-- Embedding of `window.insertRecordsGlobal` (lines 313-326). -/
def insertRecordsGlobal {α : Type} (send : Request → Except TransportError α)
    (table : String) (newRecords : List DbRecord) : JsReturn α × Nat :=
  match send (insertRecordsRequest table newRecords) with
  | Except.ok result => (JsReturn.val result, 0)
  | Except.error _ => (JsReturn.boolFalse, 1)

/-- The worker's reply to an update, as the source reads it: the code only
inspects the `error` property of the resolved payload (line 244). -/
structure UpdateReply where
  error : Bool
deriving DecidableEq

/-- Embedding of `window.updateRecordByPropertyGlobal` (lines 229-258): on a
resolved reply with falsy `error` it logs a plain message and returns `true`;
on a truthy `error` it throws, landing in the `catch`, which logs one error
and returns `false`; a transport rejection lands in the same `catch`. -/
def updateRecordByPropertyGlobal
    (send : Request → Except TransportError UpdateReply)
    (table property : String) (value : JsValue) (newRecords : DbRecord) :
    JsReturn UpdateReply × Nat :=
  match send (updateRecordByPropertyRequest table property value newRecords) with
  | Except.ok sendUpdatedRecords =>
      if sendUpdatedRecords.error then (JsReturn.boolFalse, 1)
      else (JsReturn.boolTrue, 0)
  | Except.error _ => (JsReturn.boolFalse, 1)

/-- A bridge that always rejects with a fixed transport error. -/
def rejectingSend (α : Type) : Request → Except TransportError α :=
  fun _ => Except.error { message := "The message port closed." }

/-- A bridge that always resolves with a fixed payload. -/
def constSend {α : Type} (a : α) : Request → Except TransportError α :=
  fun _ => Except.ok a

/-- C2: whenever the bridge call rejects, each of the seven record access
helpers resolves to the literal `false` and emits exactly one error log; on a
successful reply, each helper other than `updateRecordByPropertyGlobal`
resolves to the worker's payload unchanged with no error log. -/
theorem helpers_transport_reject_false :
    (∀ (α : Type) (send : Request → Except TransportError α)
        (t p : String) (v : JsValue) (e : TransportError),
        send (filterRecordsRequest t p v) = Except.error e →
        filterRecordsGlobal send t p v = (JsReturn.boolFalse, 1)) ∧
    (∀ (α : Type) (send : Request → Except TransportError α)
        (t : String) (e : TransportError),
        send (resetTableRequest t) = Except.error e →
        resetTableGlobal send t = (JsReturn.boolFalse, 1)) ∧
    (∀ (α : Type) (send : Request → Except TransportError α)
        (t : String) (e : TransportError),
        send (selectAllRecordsRequest t) = Except.error e →
        selectAllRecordsGlobal send t = (JsReturn.boolFalse, 1)) ∧
    (∀ (α : Type) (send : Request → Except TransportError α)
        (t : String) (i : Int) (e : TransportError),
        send (selectRecordByIdRequest t i) = Except.error e →
        selectRecordByIdGlobal send t i = (JsReturn.boolFalse, 1)) ∧
    (∀ (send : Request → Except TransportError UpdateReply)
        (t p : String) (v : JsValue) (nr : DbRecord) (e : TransportError),
        send (updateRecordByPropertyRequest t p v nr) = Except.error e →
        updateRecordByPropertyGlobal send t p v nr = (JsReturn.boolFalse, 1)) ∧
    (∀ (α : Type) (send : Request → Except TransportError α)
        (t : String) (i : Int) (e : TransportError),
        send (deleteRecordByIdRequest t i) = Except.error e →
        deleteRecordByIdGlobal send t i = (JsReturn.boolFalse, 1)) ∧
    (∀ (α : Type) (send : Request → Except TransportError α)
        (t : String) (nr : List DbRecord) (e : TransportError),
        send (insertRecordsRequest t nr) = Except.error e →
        insertRecordsGlobal send t nr = (JsReturn.boolFalse, 1)) ∧
    (∀ (α : Type) (send : Request → Except TransportError α)
        (t p : String) (v : JsValue) (a : α),
        send (filterRecordsRequest t p v) = Except.ok a →
        filterRecordsGlobal send t p v = (JsReturn.val a, 0)) ∧
    (∀ (α : Type) (send : Request → Except TransportError α)
        (t : String) (a : α),
        send (resetTableRequest t) = Except.ok a →
        resetTableGlobal send t = (JsReturn.val a, 0)) ∧
    (∀ (α : Type) (send : Request → Except TransportError α)
        (t : String) (a : α),
        send (selectAllRecordsRequest t) = Except.ok a →
        selectAllRecordsGlobal send t = (JsReturn.val a, 0)) ∧
    (∀ (α : Type) (send : Request → Except TransportError α)
        (t : String) (i : Int) (a : α),
        send (selectRecordByIdRequest t i) = Except.ok a →
        selectRecordByIdGlobal send t i = (JsReturn.val a, 0)) ∧
    (∀ (α : Type) (send : Request → Except TransportError α)
        (t : String) (i : Int) (a : α),
        send (deleteRecordByIdRequest t i) = Except.ok a →
        deleteRecordByIdGlobal send t i = (JsReturn.val a, 0)) ∧
    (∀ (α : Type) (send : Request → Except TransportError α)
        (t : String) (nr : List DbRecord) (a : α),
        send (insertRecordsRequest t nr) = Except.ok a →
        insertRecordsGlobal send t nr = (JsReturn.val a, 0)) := by
  refine ⟨?_, ?_, ?_, ?_, ?_, ?_, ?_, ?_, ?_, ?_, ?_, ?_, ?_⟩
  · intro α send t p v e h; unfold filterRecordsGlobal; rw [h]
  · intro α send t e h; unfold resetTableGlobal; rw [h]
  · intro α send t e h; unfold selectAllRecordsGlobal; rw [h]
  · intro α send t i e h; unfold selectRecordByIdGlobal; rw [h]
  · intro send t p v nr e h; unfold updateRecordByPropertyGlobal; rw [h]
  · intro α send t i e h; unfold deleteRecordByIdGlobal; rw [h]
  · intro α send t nr e h; unfold insertRecordsGlobal; rw [h]
  · intro α send t p v a h; unfold filterRecordsGlobal; rw [h]
  · intro α send t a h; unfold resetTableGlobal; rw [h]
  · intro α send t a h; unfold selectAllRecordsGlobal; rw [h]
  · intro α send t i a h; unfold selectRecordByIdGlobal; rw [h]
  · intro α send t i a h; unfold deleteRecordByIdGlobal; rw [h]
  · intro α send t nr a h; unfold insertRecordsGlobal; rw [h]

/-- Witness for C2: a concrete rejecting bridge makes every helper return
`(false, one error log)`, and a concrete resolving bridge makes a non-update
helper return the payload unchanged. -/
theorem helpers_transport_reject_false_witness :
    filterRecordsGlobal (rejectingSend (List DbRecord)) "watch-times" "type"
      (JsValue.str "long-form") = (JsReturn.boolFalse, 1) ∧
    resetTableGlobal (rejectingSend Unit) "watch-times" = (JsReturn.boolFalse, 1) ∧
    selectAllRecordsGlobal (rejectingSend (List DbRecord)) "watch-times"
      = (JsReturn.boolFalse, 1) ∧
    selectRecordByIdGlobal (rejectingSend DbRecord) "watch-times" 1
      = (JsReturn.boolFalse, 1) ∧
    updateRecordByPropertyGlobal (rejectingSend UpdateReply) "youtube-limitations"
      "id" (JsValue.int 1) [] = (JsReturn.boolFalse, 1) ∧
    deleteRecordByIdGlobal (rejectingSend Unit) "watch-times" 1
      = (JsReturn.boolFalse, 1) ∧
    insertRecordsGlobal (rejectingSend Unit) "watch-times" []
      = (JsReturn.boolFalse, 1) ∧
    selectAllRecordsGlobal (constSend ([[("id", JsValue.int 1)]] : List DbRecord))
      "watch-times" = (JsReturn.val [[("id", JsValue.int 1)]], 0) := by
  obtain ⟨r1, r2, r3, r4, r5, r6, r7, _, _, s3, _, _, _⟩ :=
    helpers_transport_reject_false
  exact ⟨r1 _ _ _ _ _ _ rfl, r2 _ _ _ _ rfl, r3 _ _ _ _ rfl, r4 _ _ _ _ _ rfl,
    r5 _ _ _ _ _ _ rfl, r6 _ _ _ _ _ rfl, r7 _ _ _ _ _ rfl, s3 _ _ _ _ rfl⟩

/-- C3: `updateRecordByPropertyGlobal` resolves to `true` exactly when the
bridge resolves with a reply whose `error` flag is not set; a set `error`
flag is converted (through the internal `throw` and the `catch` log) to the
same `(false, one error log)` outcome as a transport rejection; and the
helper never resolves to the worker's payload itself. -/
theorem updateRecordByProperty_error_channels :
    (∀ (send : Request → Except TransportError UpdateReply)
        (t p : String) (v : JsValue) (nr : DbRecord),
        ((updateRecordByPropertyGlobal send t p v nr).1 = JsReturn.boolTrue ↔
          ∃ r : UpdateReply,
            send (updateRecordByPropertyRequest t p v nr) = Except.ok r ∧
            r.error = false)) ∧
    (∀ (send : Request → Except TransportError UpdateReply)
        (t p : String) (v : JsValue) (nr : DbRecord) (r : UpdateReply),
        send (updateRecordByPropertyRequest t p v nr) = Except.ok r →
        r.error = true →
        updateRecordByPropertyGlobal send t p v nr = (JsReturn.boolFalse, 1)) ∧
    (∀ (send : Request → Except TransportError UpdateReply)
        (t p : String) (v : JsValue) (nr : DbRecord) (e : TransportError),
        send (updateRecordByPropertyRequest t p v nr) = Except.error e →
        updateRecordByPropertyGlobal send t p v nr = (JsReturn.boolFalse, 1)) ∧
    (∀ (send : Request → Except TransportError UpdateReply)
        (t p : String) (v : JsValue) (nr : DbRecord) (r : UpdateReply),
        (updateRecordByPropertyGlobal send t p v nr).1 ≠ JsReturn.val r) := by
  refine ⟨?_, ?_, ?_, ?_⟩
  · intro send t p v nr
    unfold updateRecordByPropertyGlobal
    cases hs : send (updateRecordByPropertyRequest t p v nr) with
    | ok r => cases hr : r.error <;> simp [hr]
    | error e => simp
  · intro send t p v nr r h hr
    unfold updateRecordByPropertyGlobal
    rw [h]
    simp [hr]
  · intro send t p v nr e h
    unfold updateRecordByPropertyGlobal
    rw [h]
  · intro send t p v nr r
    unfold updateRecordByPropertyGlobal
    cases hs : send (updateRecordByPropertyRequest t p v nr) with
    | ok reply => cases hr : reply.error <;> simp [hr]
    | error e => simp

/-- Witness for C3: a reply with the error flag set yields `(false, 1)`, a
transport rejection yields the same, and a clean reply yields `true`. -/
theorem updateRecordByProperty_error_channels_witness :
    updateRecordByPropertyGlobal (constSend { error := true })
      "youtube-limitations" "id" (JsValue.int 1) [] = (JsReturn.boolFalse, 1) ∧
    updateRecordByPropertyGlobal (rejectingSend UpdateReply)
      "youtube-limitations" "id" (JsValue.int 1) [] = (JsReturn.boolFalse, 1) ∧
    (updateRecordByPropertyGlobal (constSend { error := false })
      "youtube-limitations" "id" (JsValue.int 1) []).1 = JsReturn.boolTrue := by
  obtain ⟨hiff, hflag, htrans, _⟩ := updateRecordByProperty_error_channels
  exact ⟨hflag _ _ _ _ _ { error := true } rfl rfl,
    htrans _ _ _ _ _ _ rfl,
    (hiff _ _ _ _ _).mpr ⟨{ error := false }, rfl, rfl⟩⟩

/-- The documented message shape: only the JSDoc-listed keys `operation`,
`table`, `index`, `property`, `value`, `records`, `newRecords` may be set, so
the undocumented `id` key must be absent. -/
def usesDocumentedFields (r : Request) : Prop := r.id = none

/-- C9 (code bug): `deleteRecordByIdGlobal` builds its message with the
undocumented key `id` and leaves the documented `index` field unset,
contradicting the file's own JSDoc for `sendMessageToServiceWorker` and the
sibling `selectRecordByIdGlobal`, which does carry the identifier in
`index`; every other request builder uses only documented fields. -/
theorem deleteRecordById_sends_id_field :
    (deleteRecordByIdRequest "watch-times" 1).id = some 1 ∧
    (deleteRecordByIdRequest "watch-times" 1).index = none ∧
    ¬ usesDocumentedFields (deleteRecordByIdRequest "watch-times" 1) ∧
    (selectRecordByIdRequest "watch-times" 1).index = some 1 ∧
    (∀ t p v, usesDocumentedFields (filterRecordsRequest t p v)) ∧
    (∀ t, usesDocumentedFields (resetTableRequest t)) ∧
    (∀ t, usesDocumentedFields (selectAllRecordsRequest t)) ∧
    (∀ t i, usesDocumentedFields (selectRecordByIdRequest t i)) ∧
    (∀ t p v nr, usesDocumentedFields (updateRecordByPropertyRequest t p v nr)) ∧
    (∀ t nr, usesDocumentedFields (insertRecordsRequest t nr)) := by
  refine ⟨rfl, rfl, ?_, rfl, fun t p v => rfl, fun t => rfl, fun t => rfl,
    fun t i => rfl, fun t p v nr => rfl, fun t nr => rfl⟩
  simp [usesDocumentedFields, deleteRecordByIdRequest]

/-! ## Navigation redirect (`redirectUser`, lines 565-576) -/

/-- The message literal `redirectUser` sends. -/
structure RedirectMessage where
  redirect : String
deriving DecidableEq

/-- Embedding of `window.redirectUser` (lines 565-576): the arrow function's
parameter list is empty and it always sends the fixed object literal
`{redirect: "/html/dashboard.html"}`. -/
def redirectUserMessage : RedirectMessage :=
  { redirect := "/html/dashboard.html" }

/-- A call `redirectUser(htmlPage)`: JavaScript discards arguments that the
parameter list does not bind, so the message sent is the fixed literal, for
every argument. -/
def redirectUserWithArg (_htmlPage : String) : RedirectMessage :=
  redirectUserMessage

/-- C10: `redirectUser` ignores any argument passed to it; every invocation
sends exactly `{redirect: "/html/dashboard.html"}`, so the redirect target
cannot be chosen by the caller. -/
theorem redirectUser_fixed_target :
    (∀ htmlPage : String, redirectUserWithArg htmlPage = redirectUserMessage) ∧
    redirectUserMessage.redirect = "/html/dashboard.html" ∧
    (∀ p q : String, redirectUserWithArg p = redirectUserWithArg q) :=
  ⟨fun _ => rfl, rfl, fun _ _ => rfl⟩

/-! ## Watch-time aggregation and watch-mode lookup (lines 390-492) -/

/-- A watch-time record as the aggregation code reads it: the summing loop
uses only the numeric `"total-watch-time"` key, the date filter only the
`"date"` key. -/
structure WatchTimeRecord where
  date : String
  totalWatchTime : Int
deriving DecidableEq

/-- Embedding of `window.getTotalWatchTime` (lines 439-456): select all
records of the `"watch-times"` table and accumulate `totalTime`, starting at
`0`, over each record's `"total-watch-time"` field; the `catch` branch logs
one error and returns nothing, i.e. `undefined`. -/
def getTotalWatchTime
    (send : Request → Except TransportError (List WatchTimeRecord)) :
    JsReturn Int × Nat :=
  match send (selectAllRecordsRequest "watch-times") with
  | Except.ok totalWatchTimes =>
      (JsReturn.val
        (totalWatchTimes.foldl (fun totalTime r => totalTime + r.totalWatchTime) 0),
       0)
  | Except.error _ => (JsReturn.undefined, 1)

/-- The accumulating loop of `getTotalWatchTime` computes the sum of the
duration fields. -/
theorem foldl_add_totalWatchTime (l : List WatchTimeRecord) (init : Int) :
    l.foldl (fun totalTime r => totalTime + r.totalWatchTime) init
      = init + (l.map (fun r => r.totalWatchTime)).sum := by
  induction l generalizing init with
  | nil => simp
  | cons r tl ih =>
      simp only [List.foldl_cons, List.map_cons, List.sum_cons]
      rw [ih]
      ring

/-- C4: `getTotalWatchTime` selects all records of the watch-times table and
resolves to the sum, from `0`, of each record's total-watch-time field; over
`[{total-watch-time: 10}, {total-watch-time: 20}]` it resolves to `30`; a
transport rejection makes it resolve to `undefined`, which is not `false`. -/
theorem getTotalWatchTime_sums :
    (∀ (send : Request → Except TransportError (List WatchTimeRecord))
        (recs : List WatchTimeRecord),
        send (selectAllRecordsRequest "watch-times") = Except.ok recs →
        getTotalWatchTime send
          = (JsReturn.val ((recs.map (fun r => r.totalWatchTime)).sum), 0)) ∧
    (∀ (send : Request → Except TransportError (List WatchTimeRecord))
        (d1 d2 : String),
        send (selectAllRecordsRequest "watch-times")
          = Except.ok [{ date := d1, totalWatchTime := 10 },
                       { date := d2, totalWatchTime := 20 }] →
        getTotalWatchTime send = (JsReturn.val 30, 0)) ∧
    (∀ (send : Request → Except TransportError (List WatchTimeRecord))
        (e : TransportError),
        send (selectAllRecordsRequest "watch-times") = Except.error e →
        getTotalWatchTime send = (JsReturn.undefined, 1)) ∧
    (JsReturn.undefined : JsReturn Int) ≠ JsReturn.boolFalse := by
  have hfold : ∀ (send : Request → Except TransportError (List WatchTimeRecord))
      (recs : List WatchTimeRecord),
      send (selectAllRecordsRequest "watch-times") = Except.ok recs →
      getTotalWatchTime send
        = (JsReturn.val ((recs.map (fun r => r.totalWatchTime)).sum), 0) := by
    intro send recs h
    unfold getTotalWatchTime
    rw [h]
    simp [foldl_add_totalWatchTime]
  refine ⟨hfold, ?_, ?_, by simp⟩
  · intro send d1 d2 h
    rw [hfold send _ h]
    simp
  · intro send e h
    unfold getTotalWatchTime
    rw [h]

/-- Witness for C4 over the claim's two-record table and a rejecting bridge. -/
theorem getTotalWatchTime_sums_witness :
    getTotalWatchTime
      (constSend [{ date := "2024-11-04", totalWatchTime := 10 },
                  { date := "2024-11-05", totalWatchTime := 20 }])
      = (JsReturn.val 30, 0) ∧
    getTotalWatchTime (rejectingSend (List WatchTimeRecord))
      = (JsReturn.undefined, 1) := by
  obtain ⟨_, hsum, herr, _⟩ := getTotalWatchTime_sums
  exact ⟨hsum _ "2024-11-04" "2024-11-05" rfl, herr _ _ rfl⟩

/-- Message object literal built by `getCurrentWatchMode` (lines 478-483). -/
def getCurrentWatchModeRequest : Request :=
  { operation := "filterRecords", table := some "watch-modes",
    property := some "active", value := some (JsValue.bool true) }

/-- Embedding of `getCurrentWatchMode` (lines 476-492): filter the
`"watch-modes"` table on `active = true` and return `data[0]`; indexing an
empty array gives `undefined`, while a transport rejection is caught, logged
once and turned into `false`.  The element type is abstract because the code
never looks inside the records. -/
def getCurrentWatchMode {α : Type}
    (send : Request → Except TransportError (List α)) : JsReturn α × Nat :=
  match send getCurrentWatchModeRequest with
  | Except.ok data =>
      match data with
      | [] => (JsReturn.undefined, 0)
      | currentWatchMode :: _ => (JsReturn.val currentWatchMode, 0)
  | Except.error _ => (JsReturn.boolFalse, 1)

/-- C5: `getCurrentWatchMode` filters the watch-modes table on
`active = true` and resolves to the first element of the reply; an empty
reply yields `undefined`, which is distinct from the `false` returned on a
transport rejection. -/
theorem getCurrentWatchMode_first_active :
    getCurrentWatchModeRequest.operation = "filterRecords" ∧
    getCurrentWatchModeRequest.table = some "watch-modes" ∧
    getCurrentWatchModeRequest.property = some "active" ∧
    getCurrentWatchModeRequest.value = some (JsValue.bool true) ∧
    (∀ (α : Type) (send : Request → Except TransportError (List α))
        (r : α) (rest : List α),
        send getCurrentWatchModeRequest = Except.ok (r :: rest) →
        getCurrentWatchMode send = (JsReturn.val r, 0)) ∧
    (∀ (α : Type) (send : Request → Except TransportError (List α)),
        send getCurrentWatchModeRequest = Except.ok ([] : List α) →
        getCurrentWatchMode send = (JsReturn.undefined, 0)) ∧
    (∀ (α : Type) (send : Request → Except TransportError (List α))
        (e : TransportError),
        send getCurrentWatchModeRequest = Except.error e →
        getCurrentWatchMode send = (JsReturn.boolFalse, 1)) ∧
    (∀ α : Type, (JsReturn.undefined : JsReturn α) ≠ JsReturn.boolFalse) := by
  refine ⟨rfl, rfl, rfl, rfl, ?_, ?_, ?_, fun α => by simp⟩
  · intro α send r rest h; unfold getCurrentWatchMode; rw [h]
  · intro α send h; unfold getCurrentWatchMode; rw [h]
  · intro α send e h; unfold getCurrentWatchMode; rw [h]

/-- Witness for C5 with one-element, empty and rejecting replies. -/
theorem getCurrentWatchMode_first_active_witness :
    getCurrentWatchMode (constSend [[("active", JsValue.bool true)]])
      = (JsReturn.val [("active", JsValue.bool true)], 0) ∧
    getCurrentWatchMode (constSend ([] : List DbRecord))
      = (JsReturn.undefined, 0) ∧
    getCurrentWatchMode (rejectingSend (List DbRecord))
      = (JsReturn.boolFalse, 1) := by
  obtain ⟨_, _, _, _, hfirst, hempty, herr, _⟩ := getCurrentWatchMode_first_active
  exact ⟨hfirst _ _ _ [] rfl, hempty _ _ rfl, herr _ _ _ rfl⟩

/-- The fields of the `Date` object that `getCurrentDate` reads:
`getFullYear()`, the 0-based `getMonth()` and the day of month `getDate()`,
all from the local system clock. -/
structure JsDate where
  fullYear : Nat
  monthIndex : Nat
  dayOfMonth : Nat
deriving DecidableEq

/-- JavaScript `String(x).padStart(2, "0")`: pad on the left with zeros up
to length 2, longer strings unchanged. -/
def padStartTwoZero (s : String) : String :=
  if s.length < 2 then String.mk (List.replicate (2 - s.length) '0') ++ s else s

/-- Embedding of `window.getCurrentDate` (lines 416-422): the local date as
`"{year}-{month}-{day}"` with `getMonth() + 1` and zero-padded month and
day. -/
def getCurrentDate (date : JsDate) : String :=
  toString date.fullYear ++ "-"
    ++ padStartTwoZero (toString (date.monthIndex + 1)) ++ "-"
    ++ padStartTwoZero (toString date.dayOfMonth)

/-- Reference zero-padding from the specification's `yyyy-MM-dd` wording: a
single-digit count gets one leading zero. -/
def pad2Ref (n : Nat) : String :=
  if n < 10 then "0" ++ toString n else toString n

/-- Reference ISO date rendering from the specification: `yyyy-MM-dd` with
zero-padded month and day and no timezone normalization. -/
def isoDateRef (y m d : Nat) : String :=
  toString y ++ "-" ++ pad2Ref m ++ "-" ++ pad2Ref d

/-- The source's `padStart(2, "0")` agrees with the reference zero-padding on
every count below 100 (months and days are). -/
theorem padStart_eq_pad2Ref : ∀ n : Nat, n < 100 →
    padStartTwoZero (toString n) = pad2Ref n := by decide

/-- Message object literal built by `getCurrentWatchTimes` (lines 392-397). -/
def getCurrentWatchTimesRequest (date : JsDate) : Request :=
  { operation := "filterRecords", table := some "watch-times",
    property := some "date", value := some (JsValue.str (getCurrentDate date)) }

/-- Embedding of `window.getCurrentWatchTimes` (lines 390-403): filter the
`"watch-times"` table where `"date"` equals `getCurrentDate()`; on success
the reply is returned unchanged, the `catch` branch logs one error and
returns nothing (`undefined`). -/
def getCurrentWatchTimes (date : JsDate)
    (send : Request → Except TransportError (List WatchTimeRecord)) :
    JsReturn (List WatchTimeRecord) × Nat :=
  match send (getCurrentWatchTimesRequest date) with
  | Except.ok currentWatchTimeObj => (JsReturn.val currentWatchTimeObj, 0)
  | Except.error _ => (JsReturn.undefined, 1)

/-- C6: `getCurrentWatchTimes` issues a filter request on the watch-times
table with property `"date"` and value the local date rendered `yyyy-MM-dd`
with zero-padded month and day, and on success resolves to the worker's
reply unchanged. -/
theorem getCurrentWatchTimes_filters_today (d : JsDate)
    (hm : d.monthIndex < 12) (hd : d.dayOfMonth ≤ 31) :
    (getCurrentWatchTimesRequest d).operation = "filterRecords" ∧
    (getCurrentWatchTimesRequest d).table = some "watch-times" ∧
    (getCurrentWatchTimesRequest d).property = some "date" ∧
    (getCurrentWatchTimesRequest d).value
      = some (JsValue.str (isoDateRef d.fullYear (d.monthIndex + 1) d.dayOfMonth)) ∧
    (∀ (send : Request → Except TransportError (List WatchTimeRecord))
        (recs : List WatchTimeRecord),
        send (getCurrentWatchTimesRequest d) = Except.ok recs →
        getCurrentWatchTimes d send = (JsReturn.val recs, 0)) := by
  have h1 := padStart_eq_pad2Ref (d.monthIndex + 1) (by omega)
  have h2 := padStart_eq_pad2Ref d.dayOfMonth (by omega)
  refine ⟨rfl, rfl, rfl, ?_, ?_⟩
  · simp [getCurrentWatchTimesRequest, getCurrentDate, isoDateRef, h1, h2]
  · intro send recs h
    unfold getCurrentWatchTimes
    rw [h]

/-- Witness for C6 on January 4, 2024 (`getMonth() = 0`). -/
theorem getCurrentWatchTimes_filters_today_witness :
    (getCurrentWatchTimesRequest { fullYear := 2024, monthIndex := 0, dayOfMonth := 4 }).value
      = some (JsValue.str (isoDateRef 2024 1 4)) ∧
    isoDateRef 2024 1 4 = "2024-01-04" ∧
    getCurrentWatchTimes { fullYear := 2024, monthIndex := 0, dayOfMonth := 4 }
      (constSend []) = (JsReturn.val [], 0) := by
  obtain ⟨_, _, _, hval, hok⟩ :=
    getCurrentWatchTimes_filters_today
      { fullYear := 2024, monthIndex := 0, dayOfMonth := 4 }
      (by decide) (by decide)
  exact ⟨hval, by decide, hok _ [] rfl⟩
